import Mathlib

/-!
Shallow embedding of `src/lib/src/QGVLayerTilesOnline.cpp` (QGeoView's
online tile layer: request registry, HTTP completion handler, SQLite tile
cache) and proofs about its fetch–cache–deliver protocol.

Conventions of the embedding:
* `QByteArray` bodies are `List Nat` (byte sequences; emptiness is what the
  code tests via `isEmpty`).
* The SQLite table `Tiles` is an association list keyed by tile position;
  `INSERT OR IGNORE` appends only when the primary key is absent.
* The `QMap<GeoTilePos, QNetworkReply*> mRequest` registry is an
  association list of (position, reply id); `operator[]=` assigns in place
  or appends.
* SQL `exec` outcomes are an explicit boolean (`execOk`): a failed read
  returns the empty byte array, a failed write leaves the table unchanged,
  exactly as the C++ early-returns do.
* The straight-line completion handler `onReplyFinished` is embedded as a
  pure function that also records the ordered list of externally visible
  actions it performs (tile construction, registry removal, cache lookup,
  delivery callback `onTile`, scheduling of the background cache write via
  `QtConcurrent::run`), so ordering claims can be stated.
-/

/-- Tile identity `(zoom, x, y)`: `QGV::GeoTilePos`. -/
structure GeoTilePos where
  zoom : Nat
  x : Nat
  y : Nat
deriving DecidableEq, Repr

/-- Raw encoded image bytes (`QByteArray`). -/
abbrev TileBody := List Nat

/-- The reply error states distinguished by `onReplyFinished`:
`QNetworkReply::NoError`, `QNetworkReply::OperationCanceledError`, and all
other network errors collapsed into one case (the code only tests the two
named values). -/
inductive QNetworkError
  | NoError
  | OperationCanceledError
  | OtherError
deriving DecidableEq, Repr

/-- The observable state of a finished `QNetworkReply`: its error code, the
body returned by `readAll()`, and the `url()` used in the debug label. -/
structure QNetworkReply where
  error : QNetworkError
  body : TileBody
  url : String
deriving DecidableEq, Repr

/-- Geographic rectangle of a tile. `GeoTilePos::toGeoRect` lives outside
the provided source (projection code); it is modelled as the abstract
injective map carrying the tile position. -/
structure GeoRect where
  tile : GeoTilePos
deriving DecidableEq, Repr

/-- `tilePos.toGeoRect()` (collaborator, modelled abstractly). -/
def GeoTilePos.toGeoRect (p : GeoTilePos) : GeoRect := ⟨p⟩

/-- Colors used by the placeholder painter. -/
inductive QColor
  | red
  | black
deriving DecidableEq, Repr

/-- Text alignment used by the placeholder painter. -/
inductive QtAlign
  | alignCenter
deriving DecidableEq, Repr

/-- The observable content of the `QImage` painted in the
`QGVLayerTilesOnline` constructor: dimensions, fill color, pen color, text
alignment and text. -/
structure QImage where
  width : Nat
  height : Nat
  fill : QColor
  pen : QColor
  textAlign : QtAlign
  text : String
deriving DecidableEq, Repr

/-- The `mNoDataImage` member as built in the constructor
(`QGVLayerTilesOnline::QGVLayerTilesOnline`, lines 28–36): a 256×256
ARGB32 image filled red, painted with a black pen, centered text
`"NO DATA \n CHECK INTERNET CONNECTION"` (note the spaces surrounding the
newline in the source literal). -/
def mkNoDataImage : QImage :=
  { width := 256
    height := 256
    fill := QColor.red
    pen := QColor.black
    textAlign := QtAlign.alignCenter
    text := "NO DATA \n CHECK INTERNET CONNECTION" }

/-- What a delivered `QGVImage` tile carries: either bytes loaded with
`loadImage(QByteArray)` or an image loaded with `loadImage(QImage)`. -/
inductive TileImage
  | empty
  | fromBytes (b : TileBody)
  | fromImage (img : QImage)
deriving DecidableEq, Repr

/-- The observable state of a `QGVImage` tile object as manipulated by
`onReplyFinished`: geometry (`setGeometry`), loaded image content
(`loadImage`), and the optional `"drawDebug"` property. -/
structure QGVImage where
  geometry : Option GeoRect
  image : TileImage
  drawDebug : Option String
deriving DecidableEq, Repr

/-- `new QGVImage()`: fresh tile, nothing set. -/
def newQGVImage : QGVImage :=
  { geometry := none, image := TileImage.empty, drawDebug := none }

/-! ## Tile store (SQLite `Tiles` table) -/

/-- The `Tiles` table: rows keyed by primary key `(zoom, pos_x, pos_y)`
with a blob payload. -/
abbrev TilesTable := List (GeoTilePos × TileBody)

/-- `SELECT data FROM Tiles WHERE zoom = ? AND pos_x = ? AND pos_y = ?`:
point lookup by the composite primary key. -/
def rowGet : TilesTable → GeoTilePos → Option TileBody
  | [], _ => none
  | (q, b) :: rest, p => if q = p then some b else rowGet rest p

/-- `INSERT OR IGNORE INTO Tiles ... VALUES (?, ?, ?, ?)`: appends the row
when the primary key is absent, keeps the existing row (silently) when it
is present. -/
def rowPut (db : TilesTable) (p : GeoTilePos) (b : TileBody) : TilesTable :=
  match rowGet db p with
  | some _ => db
  | none => db ++ [(p, b)]

/-- `QGVLayerTilesOnline::cacheTile` (lines 143–164): under the database
mutex, executes the `INSERT OR IGNORE`; if `query.exec()` fails
(`execOk = false`), logs and returns leaving the table unchanged. -/
def cacheTile (execOk : Bool) (db : TilesTable) (rawData : TileBody) (tilePos : GeoTilePos) :
    TilesTable :=
  if execOk then rowPut db tilePos rawData else db

/-- `QGVLayerTilesOnline::loadTileFromCache` (lines 166–183): executes the
`SELECT`; returns the stored blob when `query.exec() && query.next()`
succeeds and a row exists, and the empty `QByteArray` otherwise (miss or
failed read, `execOk = false`). -/
def loadTileFromCache (execOk : Bool) (db : TilesTable) (tilePos : GeoTilePos) : TileBody :=
  if execOk then
    match rowGet db tilePos with
    | some b => b
    | none => []
  else []

/-! ## Request registry (`QMap<QGV::GeoTilePos, QNetworkReply*> mRequest`) -/

/-- The registry: in-flight replies keyed by tile position (reply handles
are identified by a number). -/
abbrev RequestMap := List (GeoTilePos × Nat)

/-- `mRequest.value(tilePos, nullptr)`: lookup, `none` for `nullptr`. -/
def mapValue : RequestMap → GeoTilePos → Option Nat
  | [], _ => none
  | (q, r) :: rest, p => if q = p then some r else mapValue rest p

/-- `mRequest[tilePos] = reply` (`QMap::operator[]` assignment): replaces
the value when the key is present, appends the entry otherwise. -/
def mapAssign (m : RequestMap) (p : GeoTilePos) (r : Nat) : RequestMap :=
  match mapValue m p with
  | some _ => m.map (fun e => if e.1 = p then (p, r) else e)
  | none => m ++ [(p, r)]

/-- `mRequest.remove(tilePos)`: drops the entry for the key. -/
def mapRemove (m : RequestMap) (p : GeoTilePos) : RequestMap :=
  m.filter (fun e => e.1 ≠ p)

/-- `QGVLayerTilesOnline::removeReply` (lines 111–121): looks the reply up,
returns unchanged when absent (`nullptr`), otherwise removes the entry
(the reply is then aborted, closed and deleted). -/
def removeReply (m : RequestMap) (tilePos : GeoTilePos) : RequestMap :=
  match mapValue m tilePos with
  | none => m
  | some _ => mapRemove m tilePos

/-- The registry effect of `QGVLayerTilesOnline::request` (lines 43–67):
after building the URL and issuing the GET, `mRequest[tilePos] = reply`.
The reply handle is identified by `reply`. -/
def request (m : RequestMap) (tilePos : GeoTilePos) (reply : Nat) : RequestMap :=
  mapAssign m tilePos reply

/-- `QGVLayerTilesOnline::cancel` (lines 69–72): exactly `removeReply`. -/
def cancel (m : RequestMap) (tilePos : GeoTilePos) : RequestMap :=
  removeReply m tilePos

/-! ## Completion handler -/

/-- Externally visible actions of `onReplyFinished`, in program order:
construction of the tile object (`new QGVImage` + `setGeometry`), registry
removal (`removeReply`), cache consultation (`loadTileFromCache`), the
delivery callback (`onTile`), and the scheduling of the background cache
write (`QtConcurrent::run` of `cacheTile`). -/
inductive HEvent
  | constructTile
  | removeRegistry
  | consultCache
  | deliver (pos : GeoTilePos) (tile : QGVImage)
  | scheduleCacheWrite (body : TileBody) (pos : GeoTilePos)
deriving DecidableEq, Repr

/-- Recognizes delivery events. -/
def isDeliverEvent : HEvent → Bool
  | HEvent.deliver _ _ => true
  | _ => false

/-- Recognizes cache-consultation events. -/
def isConsultEvent : HEvent → Bool
  | HEvent.consultCache => true
  | _ => false

/-- Recognizes cache-write scheduling events. -/
def isScheduleEvent : HEvent → Bool
  | HEvent.scheduleCacheWrite _ _ => true
  | _ => false

/-- The `"drawDebug"` property string set on the success path:
`QString("%1\ntile(%2,%3,%4)").arg(url).arg(zoom).arg(x).arg(y)`. -/
def drawDebugLabel (url : String) (p : GeoTilePos) : String :=
  url ++ "\ntile(" ++ toString p.zoom ++ "," ++ toString p.x ++ "," ++ toString p.y ++ ")"

/-- Result of one run of the completion handler: the ordered action trace,
the registry afterwards, the tile passed to `onTile` (if any), the body
whose background cache write was scheduled (if any), and whether the
critical error log fired. -/
structure HandlerResult where
  trace : List HEvent
  registry : RequestMap
  delivered : Option QGVImage
  scheduledWrite : Option TileBody
  loggedCritical : Bool
deriving DecidableEq, Repr

/-- `QGVLayerTilesOnline::onReplyFinished` (lines 74–109), verbatim
control flow:

* `auto tile = new QGVImage(); tile->setGeometry(tilePos.toGeoRect());`
* if `reply->error() != NoError`:
  * critical log unless the error is `OperationCanceledError`;
  * `removeReply(tilePos)`;
  * `rawData = loadTileFromCache(tilePos)`; if empty, load `mNoDataImage`
    into the tile and call `onTile`, else load `rawData` and call `onTile`;
* else (success): `rawImage = reply->readAll()`; load it, set the
  `"drawDebug"` property, `removeReply(tilePos)`, call `onTile`, then
  schedule `cacheTile(rawImage, tilePos)` on a background thread.

`noData` is the `mNoDataImage` member, `readOk` the outcome of the SQL
read in `loadTileFromCache`. -/
def onReplyFinished (noData : QImage) (readOk : Bool) (m : RequestMap) (db : TilesTable)
    (reply : QNetworkReply) (tilePos : GeoTilePos) : HandlerResult :=
  let tile0 : QGVImage := { newQGVImage with geometry := some tilePos.toGeoRect }
  if reply.error ≠ QNetworkError.NoError then
    let logged := reply.error ≠ QNetworkError.OperationCanceledError
    let m1 := removeReply m tilePos
    let rawData := loadTileFromCache readOk db tilePos
    if rawData.isEmpty then
      let tile := { tile0 with image := TileImage.fromImage noData }
      { trace := [HEvent.constructTile, HEvent.removeRegistry, HEvent.consultCache,
                  HEvent.deliver tilePos tile]
        registry := m1
        delivered := some tile
        scheduledWrite := none
        loggedCritical := logged }
    else
      let tile := { tile0 with image := TileImage.fromBytes rawData }
      { trace := [HEvent.constructTile, HEvent.removeRegistry, HEvent.consultCache,
                  HEvent.deliver tilePos tile]
        registry := m1
        delivered := some tile
        scheduledWrite := none
        loggedCritical := logged }
  else
    let rawImage := reply.body
    let tile := { tile0 with
                  image := TileImage.fromBytes rawImage
                  drawDebug := some (drawDebugLabel reply.url tilePos) }
    let m1 := removeReply m tilePos
    { trace := [HEvent.constructTile, HEvent.removeRegistry, HEvent.deliver tilePos tile,
                HEvent.scheduleCacheWrite rawImage tilePos]
      registry := m1
      delivered := some tile
      scheduledWrite := some rawImage
      loggedCritical := false }

/-- Coordinator state touched by a completion: the registry and the store. -/
structure CoordState where
  registry : RequestMap
  store : TilesTable
deriving DecidableEq, Repr

/-- One completion plus the later background cache write: runs
`onReplyFinished`, then applies the scheduled `cacheTile` (with SQL write
outcome `writeOk`) to the store. The handler itself never reads `writeOk`:
the write runs after delivery, detached by `QtConcurrent::run`. -/
def completeReply (noData : QImage) (readOk writeOk : Bool) (st : CoordState)
    (reply : QNetworkReply) (tilePos : GeoTilePos) : CoordState × HandlerResult :=
  let r := onReplyFinished noData readOk st.registry st.store reply tilePos
  let db1 := match r.scheduledWrite with
    | some body => cacheTile writeOk st.store body tilePos
    | none => st.store
  (⟨r.registry, db1⟩, r)

/-! ## Concrete sample inputs -/

/-- Sample tile position (zoom 0, origin). -/
def samplePos : GeoTilePos := ⟨0, 0, 0⟩

/-- A reply that finished with `OperationCanceledError` (the error left by
`abort()`). -/
def cancelledReply : QNetworkReply :=
  { error := QNetworkError.OperationCanceledError, body := [], url := "" }

/-- A reply that finished with a non-cancellation network error (e.g. an
HTTP 500). -/
def failedReply : QNetworkReply :=
  { error := QNetworkError.OtherError, body := [], url := "" }

/-- A successful reply with body `[1, 2, 3]`. -/
def okReply : QNetworkReply :=
  { error := QNetworkError.NoError, body := [1, 2, 3], url := "http://tile.test/0/0/0.png" }

/-! ## Claim C1 -/

/-- Claim C1 counterexample: a completion whose error is
`OperationCanceledError` — the state after `cancel(pos)` aborted the
handle, the registry already empty — still invokes the delivery callback,
here with the placeholder tile, refuting "no delivery occurs for pos". -/
theorem cancelled_completion_delivers_placeholder :
    (onReplyFinished mkNoDataImage true [] [] cancelledReply samplePos).delivered =
      some { geometry := some samplePos.toGeoRect
             image := TileImage.fromImage mkNoDataImage
             drawDebug := none } := by
  rfl

/-- Claim C1, amended: a fetch completion with the cancelled error is
handled like every other network failure except that the critical log is
skipped: the registry entry for `pos` is removed and exactly one delivery
still occurs — a tile built from the cached bytes when the lookup returns
a non-empty body, and the placeholder tile when it returns the empty byte
array. -/
theorem cancelled_completion_still_delivers (noData : QImage) (readOk : Bool) (m : RequestMap)
    (db : TilesTable) (reply : QNetworkReply) (p : GeoTilePos)
    (h : reply.error = QNetworkError.OperationCanceledError) :
    (onReplyFinished noData readOk m db reply p).loggedCritical = false ∧
    (onReplyFinished noData readOk m db reply p).registry = removeReply m p ∧
    ((onReplyFinished noData readOk m db reply p).trace.filter isDeliverEvent).length = 1 ∧
    ((loadTileFromCache readOk db p).isEmpty = false →
      (onReplyFinished noData readOk m db reply p).delivered =
        some { geometry := some p.toGeoRect
               image := TileImage.fromBytes (loadTileFromCache readOk db p)
               drawDebug := none }) ∧
    ((loadTileFromCache readOk db p).isEmpty = true →
      (onReplyFinished noData readOk m db reply p).delivered =
        some { geometry := some p.toGeoRect
               image := TileImage.fromImage noData
               drawDebug := none }) := by
  unfold onReplyFinished
  simp only [h]
  split
  · split
    · simp_all [List.filter, isDeliverEvent, newQGVImage]
    · simp_all [List.filter, isDeliverEvent, newQGVImage]
  · simp_all

/-- Witness for `cancelled_completion_still_delivers` at a concrete
input (empty store, so the cancelled completion delivers the
placeholder). -/
theorem cancelled_completion_still_delivers_witness :
    cancelledReply.error = QNetworkError.OperationCanceledError ∧
    (onReplyFinished mkNoDataImage true [] [] cancelledReply samplePos).delivered =
      some { geometry := some samplePos.toGeoRect
             image := TileImage.fromImage mkNoDataImage
             drawDebug := none } :=
  ⟨rfl, (cancelled_completion_still_delivers mkNoDataImage true [] [] cancelledReply
    samplePos rfl).2.2.2.2 rfl⟩

/-! ## Claim C2 -/

/-- Claim C2 counterexample: the first action of the completion handler is
the construction of the tile object (`new QGVImage` + `setGeometry`), not
the registry removal, refuting "removed before any other action". -/
theorem removal_is_not_first_action :
    (onReplyFinished mkNoDataImage true [(samplePos, 0)] [] okReply samplePos).trace.head? =
      some HEvent.constructTile ∧
    HEvent.constructTile ≠ HEvent.removeRegistry :=
  ⟨rfl, by decide⟩

/-- Claim C2, amended: in every completion branch the trace begins with
the tile construction followed immediately by the registry removal — so
the entry for `pos` is removed after the tile object is constructed, and
before the cache is consulted and before the delivery callback is invoked
(the only event preceding the removal is the tile construction, which is
neither a cache consultation nor a delivery). -/
theorem removal_before_consult_and_delivery (noData : QImage) (readOk : Bool) (m : RequestMap)
    (db : TilesTable) (reply : QNetworkReply) (p : GeoTilePos) :
    ∃ post,
      (onReplyFinished noData readOk m db reply p).trace =
        HEvent.constructTile :: HEvent.removeRegistry :: post ∧
      isConsultEvent HEvent.constructTile = false ∧
      isDeliverEvent HEvent.constructTile = false := by
  unfold onReplyFinished
  dsimp only
  split
  · split
    · exact ⟨_, rfl, rfl, rfl⟩
    · exact ⟨_, rfl, rfl, rfl⟩
  · exact ⟨_, rfl, rfl, rfl⟩

/-! ## Claim C3 -/

/-- The registry invariant: at most one entry per tile position, expressed
as no duplicate keys. -/
def registryAtMostOne (m : RequestMap) : Prop :=
  (m.map Prod.fst).Nodup

instance (m : RequestMap) : Decidable (registryAtMostOne m) :=
  inferInstanceAs (Decidable ((m.map Prod.fst).Nodup))

@[simp] theorem mapValue_nil (p : GeoTilePos) : mapValue [] p = none := rfl

@[simp] theorem mapValue_cons (q : GeoTilePos) (b : Nat) (rest : RequestMap) (p : GeoTilePos) :
    mapValue ((q, b) :: rest) p = if q = p then some b else mapValue rest p := rfl

theorem mapValue_append_of_none (m l : RequestMap) (p : GeoTilePos)
    (h : mapValue m p = none) : mapValue (m ++ l) p = mapValue l p := by
  induction m with
  | nil => rfl
  | cons e rest ih =>
    obtain ⟨q, b⟩ := e
    simp only [mapValue_cons] at h
    by_cases hq : q = p
    · simp [hq] at h
    · simpa [hq] using ih (by simpa [hq] using h)

theorem mapValue_map_assignFun (m : RequestMap) (p : GeoTilePos) (r r0 : Nat)
    (h : mapValue m p = some r0) :
    mapValue (m.map (fun e => if e.1 = p then (p, r) else e)) p = some r := by
  induction m with
  | nil => simp at h
  | cons e rest ih =>
    obtain ⟨q, b⟩ := e
    by_cases hq : q = p
    · subst hq
      simp
    · simp only [mapValue_cons, if_neg hq] at h
      simpa [hq] using ih h

theorem mapValue_assign_self (m : RequestMap) (p : GeoTilePos) (r : Nat) :
    mapValue (mapAssign m p r) p = some r := by
  unfold mapAssign
  cases hv : mapValue m p with
  | none =>
    rw [mapValue_append_of_none m _ p hv]
    simp
  | some r0 => exact mapValue_map_assignFun m p r r0 hv

theorem keys_of_assign_map (m : RequestMap) (p : GeoTilePos) (r : Nat) :
    ((m.map (fun e => if e.1 = p then (p, r) else e)).map Prod.fst) = m.map Prod.fst := by
  induction m with
  | nil => rfl
  | cons e rest ih =>
    by_cases h : e.1 = p <;> simp [h, ih]

theorem not_mem_keys_of_mapValue_none (m : RequestMap) (p : GeoTilePos)
    (h : mapValue m p = none) : p ∉ m.map Prod.fst := by
  induction m with
  | nil => simp
  | cons e rest ih =>
    obtain ⟨q, b⟩ := e
    simp only [mapValue_cons] at h
    by_cases hq : q = p
    · simp [hq] at h
    · simpa [Ne.symm hq] using ih (by simpa [hq] using h)

theorem registryAtMostOne_assign (m : RequestMap) (p : GeoTilePos) (r : Nat)
    (h : registryAtMostOne m) : registryAtMostOne (mapAssign m p r) := by
  unfold registryAtMostOne mapAssign at *
  cases hv : mapValue m p with
  | some r0 => rw [keys_of_assign_map]; exact h
  | none =>
    have hp := not_mem_keys_of_mapValue_none m p hv
    have hd : (m.map Prod.fst ++ [p]).Nodup := by
      refine h.append (List.nodup_singleton p) ?_
      intro a ha hb
      simp only [List.mem_singleton] at hb
      subst hb
      exact hp ha
    simpa using hd

theorem registryAtMostOne_removeReply (m : RequestMap) (p : GeoTilePos)
    (h : registryAtMostOne m) : registryAtMostOne (removeReply m p) := by
  unfold registryAtMostOne removeReply mapRemove at *
  cases mapValue m p with
  | none => exact h
  | some r0 =>
    exact h.sublist ((List.filter_sublist m).map Prod.fst)

/-- Claim C3 counterexample: a second `request` for a position whose fetch
is still pending silently replaces the recorded handle (handle 1 becomes
handle 2); nothing fails with `AlreadyPending`. -/
theorem second_request_silently_replaces :
    request (request [] samplePos 1) samplePos 2 = [(samplePos, 2)] ∧
    mapValue (request (request [] samplePos 1) samplePos 2) samplePos ≠ some 1 := by
  decide

/-- Claim C3, amended: `request(pos)` while an entry for `pos` exists does
not fail: it silently replaces the recorded handle with the new one; the
registry still holds at most one entry per `pos` at any time (the
invariant is preserved by both `request` and `cancel`, and the new handle
is the one recorded). -/
theorem request_replaces_and_keeps_at_most_one (m : RequestMap) (p : GeoTilePos) (r : Nat)
    (h : registryAtMostOne m) :
    mapValue (request m p r) p = some r ∧
    registryAtMostOne (request m p r) ∧
    registryAtMostOne (cancel m p) :=
  ⟨mapValue_assign_self m p r, registryAtMostOne_assign m p r h,
    registryAtMostOne_removeReply m p h⟩

/-- Witness for `request_replaces_and_keeps_at_most_one` at a concrete
input. -/
theorem request_replaces_and_keeps_at_most_one_witness :
    registryAtMostOne [(samplePos, 1)] ∧
    mapValue (request [(samplePos, 1)] samplePos 2) samplePos = some 2 :=
  ⟨by decide, (request_replaces_and_keeps_at_most_one [(samplePos, 1)] samplePos 2
    (by decide)).1⟩

/-! ## Claim C4 -/

/-- Claim C4 counterexample: the store holds an empty body for the
position; the lookup returns that stored row (`rowGet = some []`), yet the
handler only tests `isEmpty` on the returned byte array and therefore
delivers the placeholder, not a tile built from the cached bytes. -/
theorem empty_cached_body_gets_placeholder :
    rowGet [(samplePos, ([] : TileBody))] samplePos = some [] ∧
    (onReplyFinished mkNoDataImage true [] [(samplePos, [])] failedReply samplePos).delivered =
      some { geometry := some samplePos.toGeoRect
             image := TileImage.fromImage mkNoDataImage
             drawDebug := none } :=
  ⟨rfl, rfl⟩

/-- Claim C4, amended: a fetch completion with a non-cancellation network
error queries the store exactly once and delivers exactly once: with a
tile built from the cached bytes when the lookup returns a non-empty body,
and with the placeholder tile when it returns the empty byte array — a
miss, a stored empty body, or a failed read. -/
theorem error_completion_delivers_cache_or_placeholder (noData : QImage) (readOk : Bool)
    (m : RequestMap) (db : TilesTable) (reply : QNetworkReply) (p : GeoTilePos)
    (h1 : reply.error ≠ QNetworkError.NoError)
    (h2 : reply.error ≠ QNetworkError.OperationCanceledError) :
    ((onReplyFinished noData readOk m db reply p).trace.filter isConsultEvent).length = 1 ∧
    ((onReplyFinished noData readOk m db reply p).trace.filter isDeliverEvent).length = 1 ∧
    ((loadTileFromCache readOk db p).isEmpty = false →
      (onReplyFinished noData readOk m db reply p).delivered =
        some { geometry := some p.toGeoRect
               image := TileImage.fromBytes (loadTileFromCache readOk db p)
               drawDebug := none }) ∧
    ((loadTileFromCache readOk db p).isEmpty = true →
      (onReplyFinished noData readOk m db reply p).delivered =
        some { geometry := some p.toGeoRect
               image := TileImage.fromImage noData
               drawDebug := none }) := by
  unfold onReplyFinished
  simp only [if_pos h1]
  split
  · simp_all [List.filter, isConsultEvent, isDeliverEvent, newQGVImage]
  · simp_all [List.filter, isConsultEvent, isDeliverEvent, newQGVImage]

/-- Witness for `error_completion_delivers_cache_or_placeholder` at a
concrete input (HTTP 500 with a cached non-empty body). -/
theorem error_completion_delivers_cache_or_placeholder_witness :
    failedReply.error ≠ QNetworkError.NoError ∧
    failedReply.error ≠ QNetworkError.OperationCanceledError ∧
    ((onReplyFinished mkNoDataImage true [] [(samplePos, [170])] failedReply
      samplePos).trace.filter isDeliverEvent).length = 1 :=
  ⟨by decide, by decide,
    (error_completion_delivers_cache_or_placeholder mkNoDataImage true [] [(samplePos, [170])]
      failedReply samplePos (by decide) (by decide)).2.1⟩

/-! ## Claim C5 -/

@[simp] theorem rowGet_nil (p : GeoTilePos) : rowGet [] p = none := rfl

@[simp] theorem rowGet_cons (q : GeoTilePos) (b : TileBody) (rest : TilesTable)
    (p : GeoTilePos) :
    rowGet ((q, b) :: rest) p = if q = p then some b else rowGet rest p := rfl

theorem rowGet_append_of_none (db l : TilesTable) (p : GeoTilePos)
    (h : rowGet db p = none) : rowGet (db ++ l) p = rowGet l p := by
  induction db with
  | nil => rfl
  | cons e rest ih =>
    obtain ⟨q, b⟩ := e
    simp only [rowGet_cons] at h
    by_cases hq : q = p
    · simp [hq] at h
    · simp only [List.cons_append, rowGet_cons, if_neg hq]
      exact ih (by simpa [hq] using h)

theorem rowPut_of_none (db : TilesTable) (p : GeoTilePos) (b : TileBody)
    (h : rowGet db p = none) : rowPut db p b = db ++ [(p, b)] := by
  unfold rowPut
  rw [h]

theorem rowPut_of_some (db : TilesTable) (p : GeoTilePos) (b b2 : TileBody)
    (h : rowGet db p = some b) : rowPut db p b2 = db := by
  unfold rowPut
  rw [h]

/-- Claim C5: with the row for `pos` absent, `cacheTile` (the
`INSERT OR IGNORE`) followed by the point lookup returns the stored body;
a second `cacheTile` for the same `pos` with a different body is silently
ignored — the table is unchanged and the lookup still returns the first
body (first write wins, no error signalled). -/
theorem store_first_write_wins (db : TilesTable) (p : GeoTilePos) (b1 b2 : TileBody)
    (h : rowGet db p = none) :
    rowGet (cacheTile true db b1 p) p = some b1 ∧
    cacheTile true (cacheTile true db b1 p) b2 p = cacheTile true db b1 p ∧
    rowGet (cacheTile true (cacheTile true db b1 p) b2 p) p = some b1 := by
  have hct1 : cacheTile true db b1 p = rowPut db p b1 := rfl
  have hct2 : cacheTile true (cacheTile true db b1 p) b2 p =
      rowPut (cacheTile true db b1 p) p b2 := rfl
  have hget : rowGet (cacheTile true db b1 p) p = some b1 := by
    rw [hct1, rowPut_of_none db p b1 h, rowGet_append_of_none db _ p h]
    simp
  have hputtwo : cacheTile true (cacheTile true db b1 p) b2 p = cacheTile true db b1 p := by
    rw [hct2, rowPut_of_some _ p b1 b2 hget]
  exact ⟨hget, hputtwo, by rw [hputtwo]; exact hget⟩

/-- Witness for `store_first_write_wins` at a concrete input. -/
theorem store_first_write_wins_witness :
    rowGet [] samplePos = none ∧
    rowGet (cacheTile true (cacheTile true [] [1] samplePos) [2] samplePos) samplePos =
      some [1] :=
  ⟨rfl, (store_first_write_wins [] samplePos [1] [2] rfl).2.2⟩

/-! ## Claim C6 -/

/-- Claim C6: a successful fetch delivers exactly one tile built from the
full response body; the cache write is only scheduled, after the delivery
event in the handler's action order (`QtConcurrent::run` follows
`onTile`), the body reaches the store when the background write succeeds,
and a failed write changes neither the delivery nor the store. -/
theorem success_delivery_and_offpath_write (noData : QImage) (readOk writeOk : Bool)
    (st : CoordState) (reply : QNetworkReply) (p : GeoTilePos)
    (h : reply.error = QNetworkError.NoError) :
    (completeReply noData readOk writeOk st reply p).2.delivered =
      some { geometry := some p.toGeoRect
             image := TileImage.fromBytes reply.body
             drawDebug := some (drawDebugLabel reply.url p) } ∧
    (completeReply noData readOk true st reply p).1.store = rowPut st.store p reply.body ∧
    (∃ pre post,
      (completeReply noData readOk writeOk st reply p).2.trace =
        pre ++ HEvent.deliver p
          { geometry := some p.toGeoRect
            image := TileImage.fromBytes reply.body
            drawDebug := some (drawDebugLabel reply.url p) } :: post ∧
      ∀ e ∈ pre, isScheduleEvent e = false) ∧
    (completeReply noData readOk false st reply p).2.delivered =
      (completeReply noData readOk true st reply p).2.delivered ∧
    (completeReply noData readOk false st reply p).1.store = st.store := by
  unfold completeReply onReplyFinished
  simp only [h]
  refine ⟨by simp [newQGVImage], by simp [newQGVImage, cacheTile], ?_, by simp, by simp [cacheTile]⟩
  refine ⟨[HEvent.constructTile, HEvent.removeRegistry], [HEvent.scheduleCacheWrite reply.body p],
    by simp [newQGVImage], ?_⟩
  intro e he
  simp only [List.mem_cons, List.not_mem_nil, or_false] at he
  rcases he with rfl | rfl <;> rfl

/-- Witness for `success_delivery_and_offpath_write` at a concrete
input. -/
theorem success_delivery_and_offpath_write_witness :
    okReply.error = QNetworkError.NoError ∧
    (completeReply mkNoDataImage true true ⟨[(samplePos, 0)], []⟩ okReply samplePos).1.store =
      rowPut [] samplePos [1, 2, 3] :=
  ⟨rfl, (success_delivery_and_offpath_write mkNoDataImage true true ⟨[(samplePos, 0)], []⟩
    okReply samplePos rfl).2.1⟩

/-! ## Claim C7 -/

/-- Claim C7 counterexample: the text painted on the placeholder image is
not the claimed `"NO DATA\nCHECK INTERNET CONNECTION"` — the source
literal carries a space on each side of the newline. -/
theorem placeholder_text_is_not_as_claimed :
    mkNoDataImage.text ≠ "NO DATA\nCHECK INTERNET CONNECTION" := by
  decide

/-- Claim C7, amended: the placeholder is the image built once at
construction — a 256×256 raster, red fill, black pen, centered text
`"NO DATA \n CHECK INTERNET CONNECTION"` (spaces around the newline) — and
every placeholder delivery (error completion whose cache lookup comes back
empty) delivers exactly this image. -/
theorem placeholder_fixed_and_shared (readOk : Bool) (m : RequestMap) (db : TilesTable)
    (reply : QNetworkReply) (p : GeoTilePos)
    (h1 : reply.error ≠ QNetworkError.NoError)
    (h2 : (loadTileFromCache readOk db p).isEmpty = true) :
    mkNoDataImage =
      { width := 256
        height := 256
        fill := QColor.red
        pen := QColor.black
        textAlign := QtAlign.alignCenter
        text := "NO DATA \n CHECK INTERNET CONNECTION" } ∧
    (onReplyFinished mkNoDataImage readOk m db reply p).delivered =
      some { geometry := some p.toGeoRect
             image := TileImage.fromImage mkNoDataImage
             drawDebug := none } := by
  refine ⟨rfl, ?_⟩
  unfold onReplyFinished
  simp only [if_pos h1]
  rw [if_pos h2]
  simp [newQGVImage]

/-- Witness for `placeholder_fixed_and_shared` at a concrete input. -/
theorem placeholder_fixed_and_shared_witness :
    failedReply.error ≠ QNetworkError.NoError ∧
    (onReplyFinished mkNoDataImage true [] [] failedReply samplePos).delivered =
      some { geometry := some samplePos.toGeoRect
             image := TileImage.fromImage mkNoDataImage
             drawDebug := none } :=
  ⟨by decide, (placeholder_fixed_and_shared true [] [] failedReply samplePos
    (by decide) rfl).2⟩

/-! ## Claim C8 -/

/-- Claim C8: a completion with a non-cancellation network error leaves
the tile store untouched — no write is even scheduled, the table after the
completion is the table before it, and the existing row for `pos` is still
there. -/
theorem error_completion_leaves_store_unchanged (noData : QImage) (readOk writeOk : Bool)
    (st : CoordState) (reply : QNetworkReply) (p : GeoTilePos) (b : TileBody)
    (h1 : reply.error ≠ QNetworkError.NoError)
    (h2 : reply.error ≠ QNetworkError.OperationCanceledError)
    (hb : rowGet st.store p = some b) :
    (completeReply noData readOk writeOk st reply p).2.scheduledWrite = none ∧
    (completeReply noData readOk writeOk st reply p).1.store = st.store ∧
    rowGet (completeReply noData readOk writeOk st reply p).1.store p = some b := by
  unfold completeReply onReplyFinished
  simp only [if_pos h1]
  split <;> exact ⟨rfl, rfl, hb⟩

/-- Witness for `error_completion_leaves_store_unchanged` at a concrete
input (HTTP 500, row `[0xAA]` already stored). -/
theorem error_completion_leaves_store_unchanged_witness :
    failedReply.error ≠ QNetworkError.NoError ∧
    rowGet [(samplePos, [170])] samplePos = some [170] ∧
    (completeReply mkNoDataImage true true ⟨[], [(samplePos, [170])]⟩ failedReply
      samplePos).1.store = [(samplePos, [170])] :=
  ⟨by decide, rfl,
    (error_completion_leaves_store_unchanged mkNoDataImage true true ⟨[], [(samplePos, [170])]⟩
      failedReply samplePos [170] (by decide) (by decide) rfl).2.1⟩

/-! ## Claim C9 -/

/-- Claim C9: every tile the completion handler passes to the delivery
callback — network success, cache fallback or placeholder — carries the
geographic geometry derived from the requested tile position
(`setGeometry(tilePos.toGeoRect())` runs before any delivery). -/
theorem delivered_tile_has_geometry (noData : QImage) (readOk : Bool) (m : RequestMap)
    (db : TilesTable) (reply : QNetworkReply) (p : GeoTilePos) (t : QGVImage)
    (h : (onReplyFinished noData readOk m db reply p).delivered = some t) :
    t.geometry = some p.toGeoRect := by
  unfold onReplyFinished at h
  split at h
  · dsimp only at h
    split at h <;>
      (simp only [Option.some.injEq] at h; rw [← h])
  · dsimp only at h
    simp only [Option.some.injEq] at h
    rw [← h]

/-- Witness for `delivered_tile_has_geometry` at a concrete input. -/
theorem delivered_tile_has_geometry_witness :
    QGVImage.geometry
      { geometry := some samplePos.toGeoRect
        image := TileImage.fromBytes [1, 2, 3]
        drawDebug := some (drawDebugLabel "http://tile.test/0/0/0.png" samplePos) } =
      some samplePos.toGeoRect :=
  delivered_tile_has_geometry mkNoDataImage true [] [] okReply samplePos _ rfl

/-! ## Claim C10 -/

/-- Claim C10: only the network-success path attaches the `"drawDebug"`
label (source URL plus `tile(zoom,x,y)`); tiles delivered from the cache
fallback or as the placeholder carry no debug label. -/
theorem drawDebug_only_on_success (noData : QImage) (readOk : Bool) (m : RequestMap)
    (db : TilesTable) (reply : QNetworkReply) (p : GeoTilePos) :
    (reply.error = QNetworkError.NoError →
      (onReplyFinished noData readOk m db reply p).delivered =
        some { geometry := some p.toGeoRect
               image := TileImage.fromBytes reply.body
               drawDebug := some (drawDebugLabel reply.url p) }) ∧
    (reply.error ≠ QNetworkError.NoError →
      ∀ t, (onReplyFinished noData readOk m db reply p).delivered = some t →
        t.drawDebug = none) := by
  constructor
  · intro h
    unfold onReplyFinished
    simp only [h]
    simp [newQGVImage]
  · intro h t ht
    unfold onReplyFinished at ht
    rw [if_pos h] at ht
    dsimp only at ht
    split at ht <;>
      (simp only [Option.some.injEq] at ht; rw [← ht]; simp [newQGVImage])

/-- Witness for `drawDebug_only_on_success` at a concrete input (one
conjunct per polarity of the error test). -/
theorem drawDebug_only_on_success_witness :
    (onReplyFinished mkNoDataImage true [] [] okReply samplePos).delivered =
      some { geometry := some samplePos.toGeoRect
             image := TileImage.fromBytes [1, 2, 3]
             drawDebug := some (drawDebugLabel "http://tile.test/0/0/0.png" samplePos) } ∧
    QGVImage.drawDebug
      { geometry := some samplePos.toGeoRect
        image := TileImage.fromImage mkNoDataImage
        drawDebug := none } = none :=
  ⟨(drawDebug_only_on_success mkNoDataImage true [] [] okReply samplePos).1 rfl,
    (drawDebug_only_on_success mkNoDataImage true [] [] failedReply samplePos).2
      (by decide) _ rfl⟩
